import Mathlib

/-!
Verification development for the HRMS API module (`hrms/api/__init__.py`).

The module is a set of query endpoints over a relational store.  We embed the
relevant tables as lists of records, the framework's query primitives
(`get_value` as `List.find?`, `get_all`/query-builder filters as `List.filter`,
joins as nested iteration) and each endpoint as a Lean function over a `DB`
value.  Machine strings stay `String`; SQL `NULL` / Python `None` for string
columns is modelled as `""` where the code only tests truthiness, and as
`Option` where the distinction is observable.  Amounts are integers.
-/

namespace HrmsApi

/-- Row of the `Employee` doctype (the fields read by this module).
Empty string models an unset (`None`/`NULL`) value, matching Python
truthiness tests in the source. -/
structure EmployeeRow where
  name : String
  leave_approver : String
  expense_approver : String
  department : String
deriving DecidableEq

/-- Row of the `Department` doctype: nested-interval bounds and disabled flag. -/
structure DepartmentRow where
  name : String
  lft : Int
  rgt : Int
  disabled : Bool
deriving DecidableEq

/-- Row of the `Department Approver` child table: `parent` is the department,
`parentfield` is `"leave_approvers"` or `"expense_approvers"`, `idx` the
ordinal position in the child list. -/
structure DepartmentApproverRow where
  parent : String
  parentfield : String
  idx : Nat
  approver : String
deriving DecidableEq

/-- Row of the `User` doctype. -/
structure UserRow where
  name : String
  full_name : String
deriving DecidableEq

/-- Row of the `Leave Application` doctype (fields selected by
`get_leave_applications`, plus `docstatus` used in the team filter).
Dates are modelled as integers (day numbers); fractional leave-day counts
are carried as integers since no claim depends on their arithmetic. -/
structure LeaveApplicationRow where
  name : String
  employee : String
  employee_name : String
  leave_type : String
  status : String
  from_date : Int
  to_date : Int
  half_day : Bool
  half_day_date : Int
  description : String
  total_leave_days : Int
  leave_balance : Int
  leave_approver : String
  posting_date : Int
  docstatus : Int
deriving DecidableEq

/-- Row of the `Expense Claim` doctype (fields this module reads). -/
structure ExpenseClaimRow where
  name : String
  employee : String
  employee_name : String
  approval_status : String
  status : String
  expense_approver : String
  total_claimed_amount : Int
  total_sanctioned_amount : Int
  posting_date : Int
  company : String
  docstatus : Int
deriving DecidableEq

/-- Row of the `Expense Claim Detail` child table (`parent` is the claim). -/
structure ExpenseClaimDetailRow where
  parent : String
  expense_type : String
deriving DecidableEq

/-- Row of the `Company` doctype. -/
structure CompanyRow where
  name : String
  default_currency : String
deriving DecidableEq

/-- Row of the `Currency` doctype; `symbol = ""` models a missing symbol. -/
structure CurrencyRow where
  name : String
  symbol : String
deriving DecidableEq

/-- The relational store visible to this module, plus the two single values
read from `HR Settings`. -/
structure DB where
  employees : List EmployeeRow
  departments : List DepartmentRow
  department_approvers : List DepartmentApproverRow
  users : List UserRow
  leave_applications : List LeaveApplicationRow
  expense_claims : List ExpenseClaimRow
  expense_claim_details : List ExpenseClaimDetailRow
  companies : List CompanyRow
  currencies : List CurrencyRow
  leave_approver_mandatory : Bool
  expense_approver_mandatory : Bool

/-- Framework session / permission collaborators: `frappe.session.user` and
`frappe.has_permission(doctype, ptype, doc, user)`.  The third argument is
the optional specific document (by name); `none` means a doctype-level check,
which is what the source performs (it passes no `doc`). -/
structure Env where
  session_user : String
  has_permission : String → String → Option String → String → Bool

/-! ## Approver resolution (`get_department_approvers`,
`get_leave_approval_details`, `get_expense_approval_details`) -/

/-- A `{name, full_name}` row of the approver join; `full_name` is `Option`
because the entry appended for the primary approver carries the result of a
`get_value` lookup that may miss (`None`). -/
structure ApproverInfo where
  name : String
  full_name : Option String
deriving DecidableEq

/-- The `frappe.get_all("Department", filters={"lft": ("<=", lft), "rgt":
(">=", rgt), "disabled": 0}, pluck="name")` query from
`get_department_approvers` (source lines 157-165): every department row whose
interval contains the given bounds (the department itself and its ancestors)
and which is not disabled. -/
def selected_departments (db : DB) (lft rgt : Int) : List String :=
  (db.departments.filter fun d =>
    decide (d.lft ≤ lft ∧ rgt ≤ d.rgt ∧ d.disabled = false)).map fun d => d.name

/-- Modelled from the spec: the department set the spec describes for
alternate-approver collection — the queried department itself and all of its
non-disabled descendants (departments whose interval lies **within** the
queried bounds, inclusive).  Kept for comparison with `selected_departments`,
which is translated from the source. -/
def spec_descendant_departments (db : DB) (lft rgt : Int) : List String :=
  (db.departments.filter fun d =>
    decide (lft ≤ d.lft ∧ d.rgt ≤ rgt ∧ d.disabled = false)).map fun d => d.name

/-- The `User` ⋈ `Department Approver` join of `get_department_approvers`
(source lines 167-175): one output row per matching approver row whose
`parent` lies in `departments` and whose `parentfield` matches, carrying the
joined user's name and full name.  No DISTINCT / grouping is applied. -/
def department_approvers_query (db : DB) (departments : List String)
    (parentfield : String) : List ApproverInfo :=
  db.users.flatMap fun u =>
    (db.department_approvers.filter fun a =>
      decide (a.approver = u.name ∧ a.parent ∈ departments ∧
        a.parentfield = parentfield)).map fun _ =>
      { name := u.name, full_name := some u.full_name }

/-- `get_department_approvers(department, parentfield)` (source lines
152-177).  Returns `none` when the department name is non-empty but has no
`Department` row: the source would then dereference `None.lft` and raise. -/
def get_department_approvers (db : DB) (department : String)
    (parentfield : String) : Option (List ApproverInfo) :=
  if department = "" then some []
  else
    match db.departments.find? fun d => decide (d.name = department) with
    | none => none
    | some department_details =>
        some (department_approvers_query db
          (selected_departments db department_details.lft department_details.rgt)
          parentfield)

/-- `frappe.db.get_value("User", name, "full_name")`: `none` when the user
row is missing (including when `name` is empty). -/
def user_full_name (db : DB) (name : String) : Option String :=
  (db.users.find? fun u => decide (u.name = name)).map fun u => u.full_name

/-- Result shape of `get_leave_approval_details` (source lines 142-149). -/
structure LeaveApprovalDetails where
  leave_approver : String
  leave_approver_name : Option String
  department_approvers : List ApproverInfo
  is_mandatory : Bool
deriving DecidableEq

/-- Result shape of `get_expense_approval_details` (source lines 323-330). -/
structure ExpenseApprovalDetails where
  expense_approver : String
  expense_approver_name : Option String
  department_approvers : List ApproverInfo
  is_mandatory : Bool
deriving DecidableEq

/-- The primary-approver fallback chain shared by both endpoints (source
lines 123-134 and 302-313): the employee's override field if non-empty, else
— when a department is set — the `approver` of the `Department Approver` row
with `idx = 1` for that department and category (`""` when no such row). -/
def resolve_primary (db : DB) (override department parentfield : String) :
    String :=
  if override = "" ∧ department ≠ "" then
    ((db.department_approvers.find? fun a =>
        decide (a.parent = department ∧ a.parentfield = parentfield ∧
          a.idx = 1)).map fun a => a.approver).getD ""
  else override

/-- The append step shared by both endpoints (source lines 139-140 and
318-321): when a primary was resolved and its identifier is not among the
collected department approvers, append a `{name, full_name}` entry for it. -/
def append_primary (approver : String) (approver_name : Option String)
    (das : List ApproverInfo) : List ApproverInfo :=
  if approver ≠ "" ∧ approver ∉ das.map (fun a => a.name) then
    das ++ [{ name := approver, full_name := approver_name }]
  else das

/-- `get_leave_approval_details(employee)` (source lines 121-149): read the
employee's override and department; resolve the primary through the fallback
chain; resolve the display name; collect the department approvers; append the
primary when it is set and not already surfaced by the join.  `none` models
the exceptions raised when the employee row (or a named department's row) is
missing. -/
def get_leave_approval_details (db : DB) (employee : String) :
    Option LeaveApprovalDetails :=
  match db.employees.find? fun e => decide (e.name = employee) with
  | none => none
  | some emp =>
    let leave_approver :=
      resolve_primary db emp.leave_approver emp.department "leave_approvers"
    let leave_approver_name := user_full_name db leave_approver
    match get_department_approvers db emp.department "leave_approvers" with
    | none => none
    | some das =>
        some { leave_approver := leave_approver,
               leave_approver_name := leave_approver_name,
               department_approvers :=
                 append_primary leave_approver leave_approver_name das,
               is_mandatory := db.leave_approver_mandatory }

/-- `get_expense_approval_details(employee)` (source lines 300-330): same
resolution chain as the leave variant, over `expense_approver` /
`"expense_approvers"`. -/
def get_expense_approval_details (db : DB) (employee : String) :
    Option ExpenseApprovalDetails :=
  match db.employees.find? fun e => decide (e.name = employee) with
  | none => none
  | some emp =>
    let expense_approver :=
      resolve_primary db emp.expense_approver emp.department "expense_approvers"
    let expense_approver_name := user_full_name db expense_approver
    match get_department_approvers db emp.department "expense_approvers" with
    | none => none
    | some das =>
        some { expense_approver := expense_approver,
               expense_approver_name := expense_approver_name,
               department_approvers :=
                 append_primary expense_approver expense_approver_name das,
               is_mandatory := db.expense_approver_mandatory }

/-! ## Leave application listing (`get_leave_applications` and its callers) -/

/-- Descending insertion of `x` into a list already sorted descending by
`key` (models SQL `ORDER BY ... DESC`; relative order of equal keys is
unspecified in SQL, any consistent choice is faithful). -/
def insertDescBy (key : α → Int) (x : α) : List α → List α
  | [] => [x]
  | y :: ys => if key y ≤ key x then x :: y :: ys else y :: insertDescBy key x ys

/-- Sort a list descending by an integer key. -/
def sortDescBy (key : α → Int) : List α → List α
  | [] => []
  | x :: xs => insertDescBy key x (sortDescBy key xs)

/-- A leave row as returned to the client: the selected columns plus the two
permission booleans attached by the loop at source lines 52-54. -/
structure LeaveApplicationOut where
  row : LeaveApplicationRow
  can_cancel : Bool
  can_delete : Bool
deriving DecidableEq

/-- `get_leave_applications(filters)` (source lines 28-56): fetch the rows
matching the filters ordered by `from_date` descending, then attach
`can_cancel` / `can_delete` from `frappe.has_permission(doctype, ptype,
user=frappe.session.user)` — note the source passes no specific document, so
the check is doctype-level (`none`). -/
def get_leave_applications (env : Env) (db : DB)
    (filters : LeaveApplicationRow → Bool) : List LeaveApplicationOut :=
  let leave_applications :=
    sortDescBy (fun r => r.from_date) (db.leave_applications.filter filters)
  leave_applications.map fun leave =>
    { row := leave,
      can_cancel :=
        env.has_permission "Leave Application" "cancel" none env.session_user,
      can_delete :=
        env.has_permission "Leave Application" "delete" none env.session_user }

/-- `get_employee_leave_applications(employee)` (source lines 59-63). -/
def get_employee_leave_applications (env : Env) (db : DB) (employee : String) :
    List LeaveApplicationOut :=
  get_leave_applications env db fun r =>
    decide (r.employee = employee ∧ r.status ≠ "Cancelled")

/-- `get_team_leave_applications(employee, user_id)` (source lines 66-75). -/
def get_team_leave_applications (env : Env) (db : DB)
    (employee user_id : String) : List LeaveApplicationOut :=
  get_leave_applications env db fun r =>
    decide (r.employee ≠ employee ∧ r.leave_approver = user_id ∧
      r.status = "Open" ∧ r.docstatus = 0)

/-! ## Expense claims (`get_expense_claims`, `get_expense_claim_summary`) -/

/-- One output row of `get_expense_claims`: the selected claim columns, the
`expense_type` of a joined detail row (SQL picks an unspecified one for the
non-aggregated column; the model takes the first) and the per-claim count of
joined detail rows (`Count(ClaimDetail.expense_type)` grouped by claim). -/
structure ExpenseClaimOut where
  claim : ExpenseClaimRow
  expense_type : String
  total_expenses : Nat
deriving DecidableEq

/-- The `get_expense_claims` query without its `LIMIT` clause (source lines
200-231 and 236): inner-join claims with their detail rows (claims with no
detail row are dropped by the join), filter by the approval or ownership
branch, order by `posting_date` descending, group per claim. -/
def expense_claims_base (db : DB) (employee : String)
    (approver_id : Option String) (for_approval : Bool) : List ExpenseClaimOut :=
  let matching := db.expense_claims.filter fun c =>
    if for_approval then
      decide (c.docstatus = 0 ∧ c.status = "Draft" ∧
        some c.expense_approver = approver_id ∧ c.employee ≠ employee)
    else
      decide (c.docstatus ≠ 2 ∧ c.employee = employee)
  (sortDescBy (fun c => c.posting_date) matching).filterMap fun c =>
    match db.expense_claim_details.filter fun d => decide (d.parent = c.name) with
    | [] => none
    | d :: ds => some { claim := c, expense_type := d.expense_type,
                        total_expenses := (d :: ds).length }

/-- `get_expense_claims(employee, approver_id, for_approval, limit)` (source
lines 193-238).  The `LIMIT` clause is added only under Python truthiness of
`limit` (`if limit:`), i.e. only when it is neither `None` nor `0`. -/
def get_expense_claims (db : DB) (employee : String) (approver_id : Option String)
    (for_approval : Bool) (limit : Option Nat) : List ExpenseClaimOut :=
  let claims := expense_claims_base db employee approver_id for_approval
  match limit with
  | some n => if n ≠ 0 then claims.take n else claims
  | none => claims

/-- The aggregate row returned by `get_expense_claim_summary`: SQL `SUM` over
an empty row set is `NULL` (`none`); `company` is the non-aggregated column
(an unspecified matching row's value; the model takes the first), and
`currency` is the resolved display symbol. -/
structure ExpenseSummary where
  total_pending_amount : Option Int
  total_approved_amount : Option Int
  total_rejected_amount : Option Int
  company : Option String
  currency : Option String
deriving DecidableEq

/-- `get_expense_claim_summary(employee)` (source lines 241-283): three
conditional sums over the employee's non-cancelled (`docstatus != 2`) claims —
`Draft` buckets `total_claimed_amount` into pending, `Approved` / `Rejected`
bucket `total_sanctioned_amount` into approved / rejected — plus the company
currency symbol with fallback to the raw currency code (`symbol or currency`,
where an empty symbol is falsy). -/
def get_expense_claim_summary (db : DB) (employee : String) : ExpenseSummary :=
  let rows := db.expense_claims.filter fun c =>
    decide (c.docstatus ≠ 2 ∧ c.employee = employee)
  let total_pending := (rows.map fun c =>
    if c.approval_status = "Draft" then c.total_claimed_amount else 0).sum
  let total_approved := (rows.map fun c =>
    if c.approval_status = "Approved" then c.total_sanctioned_amount else 0).sum
  let total_rejected := (rows.map fun c =>
    if c.approval_status = "Rejected" then c.total_sanctioned_amount else 0).sum
  let company := (rows.head?).map fun c => c.company
  let currency := company.bind fun co =>
    (db.companies.find? fun x => decide (x.name = co)).map fun x => x.default_currency
  let symbol := currency.bind fun cu =>
    (db.currencies.find? fun x => decide (x.name = cu)).map fun x => x.symbol
  { total_pending_amount := if rows.isEmpty then none else some total_pending,
    total_approved_amount := if rows.isEmpty then none else some total_approved,
    total_rejected_amount := if rows.isEmpty then none else some total_rejected,
    company := company,
    currency := match symbol with
                | some s => if s = "" then currency else some s
                | none => currency }

/-! ## File upload (`upload_base64_file`) -/

/-- Value of a standard base64 alphabet character, `none` otherwise. -/
def b64val (c : Char) : Option Nat :=
  if 'A' ≤ c ∧ c ≤ 'Z' then some (c.toNat - 65)
  else if 'a' ≤ c ∧ c ≤ 'z' then some (c.toNat - 97 + 26)
  else if '0' ≤ c ∧ c ≤ '9' then some (c.toNat - 48 + 52)
  else if c = '+' then some 62
  else if c = '/' then some 63
  else none

/-- Decode base64 quartets into bytes; `=`-padding is accepted only in the
final quartet.  `none` models `base64.b64decode` raising `binascii.Error` on
malformed input (stray characters, bad length, bad padding). -/
def b64decodeChunks : List Char → Option (List Nat)
  | [] => some []
  | c1 :: c2 :: c3 :: c4 :: rest =>
      match b64val c1, b64val c2 with
      | some v1, some v2 =>
          if c3 = '=' then
            if c4 = '=' ∧ rest = [] then some [v1 * 4 + v2 / 16] else none
          else
            match b64val c3 with
            | some v3 =>
                if c4 = '=' then
                  if rest = [] then
                    some [v1 * 4 + v2 / 16, (v2 % 16) * 16 + v3 / 4]
                  else none
                else
                  match b64val c4 with
                  | some v4 =>
                      (b64decodeChunks rest).map fun bs =>
                        (v1 * 4 + v2 / 16) :: ((v2 % 16) * 16 + v3 / 4) ::
                          ((v3 % 4) * 64 + v4) :: bs
                  | none => none
            | none => none
      | _, _ => none
  | _ => none

/-- `base64.b64decode(content)`: the decoded byte list, or `none` when the
decoder raises. -/
def b64decode (content : String) : Option (List Nat) :=
  b64decodeChunks content.toList

/-- Whether `suffix` ends `s`. -/
def endsWith (s suffix : String) : Bool :=
  decide (suffix.toList = (s.toList.reverse.take suffix.toList.length).reverse)

/-- Modelled from the spec: Python's `mimetypes.guess_type(filename)[0]` for
the extensions relevant to the allow-list check (allowed document types plus a
representative disallowed executable extension); unknown extensions give
`none`, as `guess_type` returns `None` for them. -/
def guess_type (filename : String) : Option String :=
  if endsWith filename ".jpg" ∨ endsWith filename ".jpeg" then some "image/jpeg"
  else if endsWith filename ".png" then some "image/png"
  else if endsWith filename ".pdf" then some "application/pdf"
  else if endsWith filename ".txt" then some "text/plain"
  else if endsWith filename ".doc" then some "application/msword"
  else if endsWith filename ".docx" then
    some "application/vnd.openxmlformats-officedocument.wordprocessingml.document"
  else if endsWith filename ".xls" then some "application/vnd.ms-excel"
  else if endsWith filename ".xlsx" then
    some "application/vnd.openxmlformats-officedocument.spreadsheetml.sheet"
  else if endsWith filename ".exe" then some "application/x-msdownload"
  else none

/-- Modelled from the spec: `frappe.handler.ALLOWED_MIMETYPES` — JPG, PNG,
PDF, TXT and Microsoft Office document types. -/
def ALLOWED_MIMETYPES : List String :=
  ["image/jpeg", "image/png", "application/pdf", "text/plain",
   "application/msword",
   "application/vnd.openxmlformats-officedocument.wordprocessingml.document",
   "application/vnd.ms-excel",
   "application/vnd.openxmlformats-officedocument.spreadsheetml.sheet"]

/-- The source's `content_type not in ALLOWED_MIMETYPES` test, negated: a
`None` content type (unknown extension) is never in the list. -/
def allowed_mimetype (content_type : Option String) : Bool :=
  match content_type with
  | some t => decide (t ∈ ALLOWED_MIMETYPES)
  | none => false

/-- How `upload_base64_file` can fail: `decodeError` models the
`binascii.Error` propagated out of `base64.b64decode`; `userFacing` models
`frappe.throw` with its message. -/
inductive UploadError where
  | decodeError : UploadError
  | userFacing : String → UploadError
deriving DecidableEq

/-- The `File` document inserted by `upload_base64_file` (source lines
422-433). -/
structure FileDoc where
  attached_to_doctype : Option String
  attached_to_name : Option String
  attached_to_field : Option String
  folder : String
  file_name : String
  content : List Nat
  is_private : Bool
deriving DecidableEq

deriving instance DecidableEq for Except

/-- `upload_base64_file(content, filename, dt, dn, fieldname)` (source lines
410-433): decode the base64 payload first, then check the MIME type guessed
from the filename against the allow-list, throwing a user-facing error on
failure; on success insert a new `File` record holding the decoded bytes.
`Except.ok` models a created record, `Except.error` models an exception with
no record created. -/
def upload_base64_file (content filename : String)
    (dt dn fieldname : Option String) : Except UploadError FileDoc :=
  match b64decode content with
  | none => Except.error UploadError.decodeError
  | some decoded_content =>
    let content_type := guess_type filename
    if allowed_mimetype content_type then
      Except.ok { attached_to_doctype := dt, attached_to_name := dn,
                  attached_to_field := fieldname, folder := "Home",
                  file_name := filename, content := decoded_content,
                  is_private := true }
    else
      Except.error (UploadError.userFacing
        "You can only upload JPG, PNG, PDF, TXT or Microsoft documents.")

/-- Observation: did the upload create a record (no exception)? -/
def upload_accepted (r : Except UploadError FileDoc) : Bool :=
  match r with
  | Except.ok _ => true
  | Except.error _ => false

/-! ## Concrete example data for witnesses and counterexamples -/

/-- An empty store. -/
def emptyDB : DB :=
  { employees := [], departments := [], department_approvers := [], users := [],
    leave_applications := [], expense_claims := [], expense_claim_details := [],
    companies := [], currencies := [],
    leave_approver_mandatory := false, expense_approver_mandatory := false }

/-- Departments `A(1,10)`, its child `B(2,7)` and unrelated `C(11,12)`, with a
leave approver configured on the child `B`. -/
def exDB1 : DB :=
  { emptyDB with
    departments := [{ name := "A", lft := 1, rgt := 10, disabled := false },
                    { name := "B", lft := 2, rgt := 7, disabled := false },
                    { name := "C", lft := 11, rgt := 12, disabled := false }],
    department_approvers :=
      [{ parent := "B", parentfield := "leave_approvers", idx := 1,
         approver := "child.approver@x.com" }],
    users := [{ name := "child.approver@x.com", full_name := "Child Approver" }] }

/-- An employee with both overrides set and an empty department. -/
def exDB2 : DB :=
  { emptyDB with
    employees := [{ name := "EMP-1", leave_approver := "boss@x.com",
                    expense_approver := "boss@x.com", department := "" }],
    users := [{ name := "boss@x.com", full_name := "Boss" }] }

/-- Department `D(2,3)` inside parent `P(1,4)`, with the same user configured
as leave approver *and* as expense approver on both departments, and an
employee of `D` with no override in either category. -/
def exDB3 : DB :=
  { emptyDB with
    employees := [{ name := "EMP-1", leave_approver := "",
                    expense_approver := "", department := "D" }],
    departments := [{ name := "P", lft := 1, rgt := 4, disabled := false },
                    { name := "D", lft := 2, rgt := 3, disabled := false }],
    department_approvers :=
      [{ parent := "P", parentfield := "leave_approvers", idx := 1,
         approver := "u@x.com" },
       { parent := "D", parentfield := "leave_approvers", idx := 1,
         approver := "u@x.com" },
       { parent := "P", parentfield := "expense_approvers", idx := 1,
         approver := "u@x.com" },
       { parent := "D", parentfield := "expense_approvers", idx := 1,
         approver := "u@x.com" }],
    users := [{ name := "u@x.com", full_name := "U" }] }

/-- An employee with both overrides set and a department that has different
approvers configured, to exercise override precedence. -/
def exDB4 : DB :=
  { emptyDB with
    employees := [{ name := "EMP-1", leave_approver := "boss@x.com",
                    expense_approver := "chief@x.com", department := "D" }],
    departments := [{ name := "D", lft := 1, rgt := 2, disabled := false }],
    department_approvers :=
      [{ parent := "D", parentfield := "leave_approvers", idx := 1,
         approver := "other@x.com" },
       { parent := "D", parentfield := "expense_approvers", idx := 1,
         approver := "other2@x.com" }],
    users := [{ name := "boss@x.com", full_name := "Boss" },
              { name := "chief@x.com", full_name := "Chief" },
              { name := "other@x.com", full_name := "Other" },
              { name := "other2@x.com", full_name := "Other Two" }] }

/-- An employee with no overrides and a department with one leave approver and
one expense approver configured at ordinal position 1. -/
def exDB5 : DB :=
  { emptyDB with
    employees := [{ name := "EMP-1", leave_approver := "",
                    expense_approver := "", department := "D" }],
    departments := [{ name := "D", lft := 1, rgt := 2, disabled := false }],
    department_approvers :=
      [{ parent := "D", parentfield := "leave_approvers", idx := 1,
         approver := "la@x.com" },
       { parent := "D", parentfield := "expense_approvers", idx := 1,
         approver := "ea@x.com" }],
    users := [{ name := "la@x.com", full_name := "Leave Approver" },
              { name := "ea@x.com", full_name := "Expense Approver" }] }

/-- The three claims of the summary scenario: `Draft`/`Approved`/`Rejected`
with claimed and sanctioned amounts `100`/`200`/`300`, all non-cancelled and
owned by `e`. -/
def sampleClaims (e : String) : List ExpenseClaimRow :=
  [{ name := "EXP-1", employee := e, employee_name := "E", approval_status := "Draft",
     status := "Draft", expense_approver := "a@x.com", total_claimed_amount := 100,
     total_sanctioned_amount := 100, posting_date := 3, company := "Acme",
     docstatus := 0 },
   { name := "EXP-2", employee := e, employee_name := "E", approval_status := "Approved",
     status := "Paid", expense_approver := "a@x.com", total_claimed_amount := 200,
     total_sanctioned_amount := 200, posting_date := 2, company := "Acme",
     docstatus := 1 },
   { name := "EXP-3", employee := e, employee_name := "E", approval_status := "Rejected",
     status := "Rejected", expense_approver := "a@x.com", total_claimed_amount := 300,
     total_sanctioned_amount := 300, posting_date := 1, company := "Acme",
     docstatus := 1 }]

/-- A claim in a status outside `Draft`/`Approved`/`Rejected`. -/
def extraClaim : ExpenseClaimRow :=
  { name := "EXP-4", employee := "EMP-1", employee_name := "E",
    approval_status := "Submitted", status := "Submitted",
    expense_approver := "a@x.com", total_claimed_amount := 999,
    total_sanctioned_amount := 999, posting_date := 4, company := "Acme",
    docstatus := 1 }

/-- Summary scenario store: the three bucketed claims plus one claim in an
unbucketed status. -/
def exDB6 : DB :=
  { emptyDB with
    expense_claims := sampleClaims "EMP-1" ++ [extraClaim],
    companies := [{ name := "Acme", default_currency := "USD" }],
    currencies := [{ name := "USD", symbol := "$" }] }

/-- A single leave application owned by `EMP-1`. -/
def exLeaveRow : LeaveApplicationRow :=
  { name := "LA-1", employee := "EMP-1", employee_name := "E",
    leave_type := "Casual Leave", status := "Open", from_date := 10,
    to_date := 11, half_day := false, half_day_date := 0, description := "",
    total_leave_days := 2, leave_balance := 5, leave_approver := "boss@x.com",
    posting_date := 9, docstatus := 0 }

/-- Store with the single leave application. -/
def exDB8 : DB := { emptyDB with leave_applications := [exLeaveRow] }

/-- A session whose permission oracle grants doctype-level checks (`doc =
none`) but denies record-specific ones: it separates the check the source
performs from a per-record check. -/
def exEnv8 : Env :=
  { session_user := "viewer@x.com",
    has_permission := fun _ _ doc _ => doc.isNone }

/-- Three claims of `EMP-1`, each with one detail row, for the limit
behaviour. -/
def exDB10 : DB :=
  { emptyDB with
    expense_claims := sampleClaims "EMP-1",
    expense_claim_details :=
      [{ parent := "EXP-1", expense_type := "Travel" },
       { parent := "EXP-2", expense_type := "Food" },
       { parent := "EXP-3", expense_type := "Travel" }] }

/-- The employee row of `exDB2`. -/
def exEmp2 : EmployeeRow :=
  { name := "EMP-1", leave_approver := "boss@x.com",
    expense_approver := "boss@x.com", department := "" }

/-- The employee row of `exDB4`. -/
def exEmp4 : EmployeeRow :=
  { name := "EMP-1", leave_approver := "boss@x.com",
    expense_approver := "chief@x.com", department := "D" }

/-- The employee row of `exDB5`. -/
def exEmp5 : EmployeeRow :=
  { name := "EMP-1", leave_approver := "", expense_approver := "",
    department := "D" }

/-- `get_leave_approval_details exDB2 "EMP-1"` in full. -/
def exD2L : LeaveApprovalDetails :=
  { leave_approver := "boss@x.com", leave_approver_name := some "Boss",
    department_approvers := [{ name := "boss@x.com", full_name := some "Boss" }],
    is_mandatory := false }

/-- `get_expense_approval_details exDB2 "EMP-1"` in full. -/
def exD2E : ExpenseApprovalDetails :=
  { expense_approver := "boss@x.com", expense_approver_name := some "Boss",
    department_approvers := [{ name := "boss@x.com", full_name := some "Boss" }],
    is_mandatory := false }

/-- `get_leave_approval_details exDB4 "EMP-1"` in full. -/
def exD4L : LeaveApprovalDetails :=
  { leave_approver := "boss@x.com", leave_approver_name := some "Boss",
    department_approvers := [{ name := "other@x.com", full_name := some "Other" },
                             { name := "boss@x.com", full_name := some "Boss" }],
    is_mandatory := false }

/-- `get_expense_approval_details exDB4 "EMP-1"` in full. -/
def exD4E : ExpenseApprovalDetails :=
  { expense_approver := "chief@x.com", expense_approver_name := some "Chief",
    department_approvers := [{ name := "other2@x.com", full_name := some "Other Two" },
                             { name := "chief@x.com", full_name := some "Chief" }],
    is_mandatory := false }

/-- `get_leave_approval_details exDB5 "EMP-1"` in full. -/
def exD5L : LeaveApprovalDetails :=
  { leave_approver := "la@x.com", leave_approver_name := some "Leave Approver",
    department_approvers := [{ name := "la@x.com", full_name := some "Leave Approver" }],
    is_mandatory := false }

/-- `get_expense_approval_details exDB5 "EMP-1"` in full. -/
def exD5E : ExpenseApprovalDetails :=
  { expense_approver := "ea@x.com", expense_approver_name := some "Expense Approver",
    department_approvers := [{ name := "ea@x.com", full_name := some "Expense Approver" }],
    is_mandatory := false }

/-! ## Claims -/

/-- Claim C1, counterexample.  The claim states that the department set used
by `get_department_approvers` is the queried department plus its non-disabled
descendants, in particular that a department with `left=2, right=7` is
selected when the query department has `left=1, right=10`.  On the code the
filter is `lft <= 1 ∧ rgt >= 10`, so in `exDB1` (query department `A(1,10)`,
child `B(2,7)` carrying a configured approver, unrelated `C(11,12)`) the
selected set is `["A"]` only: `B` is not selected, the approver configured on
`B` is not collected, while the set the claim describes would be
`["A", "B"]`. -/
theorem C1_counterexample :
    ¬ ("B" ∈ selected_departments exDB1 1 10) ∧
    selected_departments exDB1 1 10 = ["A"] ∧
    get_department_approvers exDB1 "A" "leave_approvers" = some [] ∧
    spec_descendant_departments exDB1 1 10 = ["A", "B"] := by
  decide

/-- Claim C1, amended: the department set used to collect alternate approvers
in `get_department_approvers` consists of the queried department itself and
all of its non-disabled **ancestor** departments — every non-disabled
department whose left/right interval contains the queried department's
interval (inclusive).  A department with `left=2, right=7` is therefore *not*
selected when the query department has `left=1, right=10` (nor is one with
`left=11, right=12`); it is selected when the query department lies within
its interval. -/
theorem C1_amended (db : DB) (dept : String) (dd : DepartmentRow) (pf n : String)
    (h1 : db.departments.find? (fun d => decide (d.name = dept)) = some dd)
    (h2 : dept ≠ "") :
    get_department_approvers db dept pf =
      some (department_approvers_query db
        (selected_departments db dd.lft dd.rgt) pf) ∧
    (n ∈ selected_departments db dd.lft dd.rgt ↔
      ∃ d ∈ db.departments, d.name = n ∧ d.lft ≤ dd.lft ∧ dd.rgt ≤ d.rgt ∧
        d.disabled = false) := by
  constructor
  · unfold get_department_approvers
    rw [if_neg h2, h1]
  · unfold selected_departments
    simp only [List.mem_map, List.mem_filter, decide_eq_true_eq]
    constructor
    · rintro ⟨d, ⟨hd, ha, hb, hc⟩, rfl⟩
      exact ⟨d, hd, rfl, ha, hb, hc⟩
    · rintro ⟨d, hd, rfl, ha, hb, hc⟩
      exact ⟨d, ⟨hd, ha, hb, hc⟩, rfl⟩

/-- Witness for `C1_amended` at `exDB1`: querying the child department
`B(2,7)` selects `B` itself and its ancestor `A(1,10)`, and the collected
approver entries are exactly those configured on `B` and `A`. -/
theorem C1_amended_witness :
    exDB1.departments.find? (fun d => decide (d.name = "B")) =
      some { name := "B", lft := 2, rgt := 7, disabled := false } ∧
    "B" ≠ "" ∧
    get_department_approvers exDB1 "B" "leave_approvers" =
      some (department_approvers_query exDB1
        (selected_departments exDB1 2 7) "leave_approvers") ∧
    ("A" ∈ selected_departments exDB1 2 7 ↔
      ∃ d ∈ exDB1.departments, d.name = "A" ∧ d.lft ≤ 2 ∧ (7 : Int) ≤ d.rgt ∧
        d.disabled = false) := by
  refine ⟨by decide, by decide, ?_, ?_⟩
  · exact (C1_amended exDB1 "B"
      { name := "B", lft := 2, rgt := 7, disabled := false } "leave_approvers" "A"
      (by decide) (by decide)).1
  · exact (C1_amended exDB1 "B"
      { name := "B", lft := 2, rgt := 7, disabled := false } "leave_approvers" "A"
      (by decide) (by decide)).2

/-- Claim C2, counterexample.  The claim states that an employee with an
empty department gets an empty `department_approvers` list even when a
primary was resolved via the override.  In `exDB2` the employee has
`department = ""` and override `boss@x.com`, and the code *appends* the
resolved primary to the (empty) subtree result, so the returned list is
`[boss@x.com]`, not `[]`. -/
theorem C2_counterexample :
    (get_leave_approval_details exDB2 "EMP-1").map
        (fun d => d.department_approvers) =
      some [{ name := "boss@x.com", full_name := some "Boss" }] ∧
    ¬ ((get_leave_approval_details exDB2 "EMP-1").map
        (fun d => d.department_approvers) = some []) ∧
    (get_leave_approval_details exDB2 "EMP-1").map
        (fun d => d.leave_approver) = some "boss@x.com" ∧
    (get_expense_approval_details exDB2 "EMP-1").map
        (fun d => d.department_approvers) =
      some [{ name := "boss@x.com", full_name := some "Boss" }] := by
  decide

/-- Claim C2, amended: for an employee with an empty department the subtree
query `get_department_approvers` itself returns an empty list, and the
`department_approvers` list returned by `get_leave_approval_details` /
`get_expense_approval_details` is empty when no primary was resolved and
consists of exactly the primary-approver entry when one was resolved via the
employee's override field (the code appends the resolved primary to the empty
subtree result). -/
theorem C2_amended (db : DB) (employee : String) (emp : EmployeeRow)
    (h1 : db.employees.find? (fun e => decide (e.name = employee)) = some emp)
    (h2 : emp.department = "") :
    get_department_approvers db emp.department "leave_approvers" = some [] ∧
    (get_leave_approval_details db employee).map
        (fun d => d.department_approvers) =
      some (if emp.leave_approver = "" then []
            else [{ name := emp.leave_approver,
                    full_name := user_full_name db emp.leave_approver }]) ∧
    (get_expense_approval_details db employee).map
        (fun d => d.department_approvers) =
      some (if emp.expense_approver = "" then []
            else [{ name := emp.expense_approver,
                    full_name := user_full_name db emp.expense_approver }]) := by
  refine ⟨by rw [h2]; rfl, ?_, ?_⟩
  · simp only [get_leave_approval_details, h1, h2, get_department_approvers,
      if_pos rfl, resolve_primary, append_primary]
    simp [ite_not]
  · simp only [get_expense_approval_details, h1, h2, get_department_approvers,
      if_pos rfl, resolve_primary, append_primary]
    simp [ite_not]

/-- Witness for `C2_amended` at `exDB2`: the employee has an override and an
empty department, and both endpoints return exactly the primary entry as the
alternates list. -/
theorem C2_witness :
    exDB2.employees.find? (fun e => decide (e.name = "EMP-1")) = some exEmp2 ∧
    exEmp2.department = "" ∧
    get_department_approvers exDB2 exEmp2.department "leave_approvers" =
      some [] ∧
    (get_leave_approval_details exDB2 "EMP-1").map
        (fun d => d.department_approvers) =
      some (if exEmp2.leave_approver = "" then []
            else [{ name := exEmp2.leave_approver,
                    full_name := user_full_name exDB2 exEmp2.leave_approver }]) ∧
    (get_expense_approval_details exDB2 "EMP-1").map
        (fun d => d.department_approvers) =
      some (if exEmp2.expense_approver = "" then []
            else [{ name := exEmp2.expense_approver,
                    full_name := user_full_name exDB2 exEmp2.expense_approver }]) := by
  refine ⟨by decide, by decide, ?_, ?_, ?_⟩
  · exact (C2_amended exDB2 "EMP-1" exEmp2 (by decide) (by decide)).1
  · exact (C2_amended exDB2 "EMP-1" exEmp2 (by decide) (by decide)).2.1
  · exact (C2_amended exDB2 "EMP-1" exEmp2 (by decide) (by decide)).2.2

/-- Claim C3, counterexample.  The claim states that, for both workflow
categories, the alternates list is deduplicated by approver identifier and a
resolved primary appears exactly once.  In `exDB3` the same user `u@x.com` is
configured as leave approver and as expense approver on department `D(2,3)`
and on its ancestor `P(1,4)`; querying the employee of `D` resolves
`u@x.com` as primary in both categories, and the join (which applies no
DISTINCT) surfaces the user twice, so both endpoints return a list containing
the primary twice. -/
theorem C3_counterexample :
    (get_leave_approval_details exDB3 "EMP-1").map
        (fun d => d.department_approvers.map (fun a => a.name)) =
      some ["u@x.com", "u@x.com"] ∧
    (get_leave_approval_details exDB3 "EMP-1").map
        (fun d => d.leave_approver) = some "u@x.com" ∧
    (get_leave_approval_details exDB3 "EMP-1").map
        (fun d => (d.department_approvers.map (fun a => a.name)).count
          d.leave_approver) = some 2 ∧
    ¬ ((get_leave_approval_details exDB3 "EMP-1").map
        (fun d => (d.department_approvers.map (fun a => a.name)).count
          d.leave_approver) = some 1) ∧
    (get_expense_approval_details exDB3 "EMP-1").map
        (fun d => d.department_approvers.map (fun a => a.name)) =
      some ["u@x.com", "u@x.com"] ∧
    (get_expense_approval_details exDB3 "EMP-1").map
        (fun d => d.expense_approver) = some "u@x.com" ∧
    (get_expense_approval_details exDB3 "EMP-1").map
        (fun d => (d.department_approvers.map (fun a => a.name)).count
          d.expense_approver) = some 2 ∧
    ¬ ((get_expense_approval_details exDB3 "EMP-1").map
        (fun d => (d.department_approvers.map (fun a => a.name)).count
          d.expense_approver) = some 1) := by
  decide

/-- Claim C3, amended: for both workflow categories (leave and expense), the
alternates list is the raw join result and may contain an approver identifier
several times when the user is configured on several selected departments;
whenever a primary approver was resolved it appears in the list at least
once, and exactly once when the department traversal did not already surface
it (the code then appends a single entry). -/
theorem C3_amended (db : DB) (employee : String) (emp : EmployeeRow)
    (J JE : List ApproverInfo) (d : LeaveApprovalDetails)
    (dE : ExpenseApprovalDetails)
    (h1 : db.employees.find? (fun e => decide (e.name = employee)) = some emp)
    (hJ : get_department_approvers db emp.department "leave_approvers" = some J)
    (h2 : get_leave_approval_details db employee = some d)
    (h3 : d.leave_approver ≠ "")
    (hJE : get_department_approvers db emp.department "expense_approvers" =
      some JE)
    (h2E : get_expense_approval_details db employee = some dE)
    (h3E : dE.expense_approver ≠ "") :
    (d.leave_approver ∈ d.department_approvers.map (fun a => a.name) ∧
      (d.leave_approver ∉ J.map (fun a => a.name) →
        (d.department_approvers.map (fun a => a.name)).count d.leave_approver
          = 1)) ∧
    (dE.expense_approver ∈ dE.department_approvers.map (fun a => a.name) ∧
      (dE.expense_approver ∉ JE.map (fun a => a.name) →
        (dE.department_approvers.map (fun a => a.name)).count
          dE.expense_approver = 1)) := by
  constructor
  · simp only [get_leave_approval_details, h1, hJ] at h2
    injection h2 with h2
    subst h2
    dsimp only at h3 ⊢
    set ra := resolve_primary db emp.leave_approver emp.department
      "leave_approvers" with hra
    by_cases hmem : ra ∈ J.map fun a => a.name
    · have heq : append_primary ra (user_full_name db ra) J = J := by
        unfold append_primary
        exact if_neg fun h => h.2 hmem
      rw [heq]
      exact ⟨hmem, fun hnot => absurd hmem hnot⟩
    · have heq : append_primary ra (user_full_name db ra) J =
          J ++ [{ name := ra, full_name := user_full_name db ra }] := by
        unfold append_primary
        exact if_pos ⟨h3, hmem⟩
      rw [heq]
      constructor
      · simp
      · intro _
        rw [List.map_append, List.count_append]
        simp [List.count_eq_zero.mpr hmem]
  · simp only [get_expense_approval_details, h1, hJE] at h2E
    injection h2E with h2E
    subst h2E
    dsimp only at h3E ⊢
    set ra := resolve_primary db emp.expense_approver emp.department
      "expense_approvers" with hra
    by_cases hmem : ra ∈ JE.map fun a => a.name
    · have heq : append_primary ra (user_full_name db ra) JE = JE := by
        unfold append_primary
        exact if_neg fun h => h.2 hmem
      rw [heq]
      exact ⟨hmem, fun hnot => absurd hmem hnot⟩
    · have heq : append_primary ra (user_full_name db ra) JE =
          JE ++ [{ name := ra, full_name := user_full_name db ra }] := by
        unfold append_primary
        exact if_pos ⟨h3E, hmem⟩
      rw [heq]
      constructor
      · simp
      · intro _
        rw [List.map_append, List.count_append]
        simp [List.count_eq_zero.mpr hmem]

/-- Witness for `C3_amended` at `exDB2`: in both categories the primary
resolved via the override is not surfaced by the (empty) traversal and
appears exactly once in the final alternates list. -/
theorem C3_witness :
    exDB2.employees.find? (fun e => decide (e.name = "EMP-1")) = some exEmp2 ∧
    get_department_approvers exDB2 exEmp2.department "leave_approvers" =
      some [] ∧
    get_leave_approval_details exDB2 "EMP-1" = some exD2L ∧
    exD2L.leave_approver ≠ "" ∧
    get_department_approvers exDB2 exEmp2.department "expense_approvers" =
      some [] ∧
    get_expense_approval_details exDB2 "EMP-1" = some exD2E ∧
    exD2E.expense_approver ≠ "" ∧
    exD2L.leave_approver ∉ ([] : List ApproverInfo).map (fun a => a.name) ∧
    exD2L.leave_approver ∈ exD2L.department_approvers.map (fun a => a.name) ∧
    (exD2L.department_approvers.map (fun a => a.name)).count
      exD2L.leave_approver = 1 ∧
    exD2E.expense_approver ∈ exD2E.department_approvers.map (fun a => a.name) ∧
    (exD2E.department_approvers.map (fun a => a.name)).count
      exD2E.expense_approver = 1 := by
  have h := C3_amended exDB2 "EMP-1" exEmp2 [] [] exD2L exD2E (by decide)
    (by decide) (by decide) (by decide) (by decide) (by decide) (by decide)
  exact ⟨by decide, by decide, by decide, by decide, by decide, by decide,
    by decide, by decide, h.1.1, h.1.2 (by decide), h.2.1, h.2.2 (by decide)⟩

/-- Claim C4 (confirmed): when the employee's per-category override field is
non-empty, the approval-details endpoints return that override as the primary
approver, whatever the `Department Approver` configuration is — the store
`db`, and with it the department-approver table, is arbitrary. -/
theorem C4_theorem (db : DB) (employee : String) (emp : EmployeeRow)
    (dl : LeaveApprovalDetails) (de : ExpenseApprovalDetails)
    (h1 : db.employees.find? (fun e => decide (e.name = employee)) = some emp)
    (h2 : emp.leave_approver ≠ "")
    (h3 : get_leave_approval_details db employee = some dl)
    (h4 : emp.expense_approver ≠ "")
    (h5 : get_expense_approval_details db employee = some de) :
    dl.leave_approver = emp.leave_approver ∧
    de.expense_approver = emp.expense_approver := by
  constructor
  · simp only [get_leave_approval_details, h1] at h3
    rcases hda : get_department_approvers db emp.department "leave_approvers"
      with _ | das <;> rw [hda] at h3
    · exact absurd h3 (by simp)
    · injection h3 with h3
      subst h3
      dsimp only
      unfold resolve_primary
      exact if_neg fun h => h2 h.1
  · simp only [get_expense_approval_details, h1] at h5
    rcases hda : get_department_approvers db emp.department "expense_approvers"
      with _ | das <;> rw [hda] at h5
    · exact absurd h5 (by simp)
    · injection h5 with h5
      subst h5
      dsimp only
      unfold resolve_primary
      exact if_neg fun h => h4 h.1

/-- Witness for `C4_theorem` at `exDB4`: both overrides are set and both
endpoints return them as primary although the department has different
approvers configured. -/
theorem C4_witness :
    exDB4.employees.find? (fun e => decide (e.name = "EMP-1")) = some exEmp4 ∧
    exEmp4.leave_approver ≠ "" ∧
    get_leave_approval_details exDB4 "EMP-1" = some exD4L ∧
    exEmp4.expense_approver ≠ "" ∧
    get_expense_approval_details exDB4 "EMP-1" = some exD4E ∧
    exD4L.leave_approver = exEmp4.leave_approver ∧
    exD4E.expense_approver = exEmp4.expense_approver := by
  refine ⟨by decide, by decide, by decide, by decide, by decide, ?_, ?_⟩
  · exact (C4_theorem exDB4 "EMP-1" exEmp4 exD4L exD4E (by decide) (by decide)
      (by decide) (by decide) (by decide)).1
  · exact (C4_theorem exDB4 "EMP-1" exEmp4 exD4L exD4E (by decide) (by decide)
      (by decide) (by decide) (by decide)).2

/-- Claim C5 (confirmed): when the employee has no override, the primary is
the `approver` of the `Department Approver` row with `parent` equal to the
employee's department, the category's `parentfield`, and ordinal position
`idx = 1` (empty when no such row); when the employee has no department
either, the primary is empty. -/
theorem C5_theorem (db : DB) (employee : String) (emp : EmployeeRow)
    (dl : LeaveApprovalDetails) (de : ExpenseApprovalDetails)
    (h1 : db.employees.find? (fun e => decide (e.name = employee)) = some emp)
    (h2 : emp.leave_approver = "")
    (h3 : get_leave_approval_details db employee = some dl)
    (h4 : emp.expense_approver = "")
    (h5 : get_expense_approval_details db employee = some de) :
    dl.leave_approver =
      (if emp.department = "" then ""
       else ((db.department_approvers.find? fun a =>
           decide (a.parent = emp.department ∧
             a.parentfield = "leave_approvers" ∧ a.idx = 1)).map
         fun a => a.approver).getD "") ∧
    de.expense_approver =
      (if emp.department = "" then ""
       else ((db.department_approvers.find? fun a =>
           decide (a.parent = emp.department ∧
             a.parentfield = "expense_approvers" ∧ a.idx = 1)).map
         fun a => a.approver).getD "") := by
  constructor
  · simp only [get_leave_approval_details, h1] at h3
    rcases hda : get_department_approvers db emp.department "leave_approvers"
      with _ | das <;> rw [hda] at h3
    · exact absurd h3 (by simp)
    · injection h3 with h3
      subst h3
      dsimp only
      unfold resolve_primary
      rcases Decidable.em (emp.department = "") with hd | hd
      · rw [if_neg (fun h => h.2 hd), if_pos hd, h2]
      · rw [if_pos ⟨h2, hd⟩, if_neg hd]
  · simp only [get_expense_approval_details, h1] at h5
    rcases hda : get_department_approvers db emp.department "expense_approvers"
      with _ | das <;> rw [hda] at h5
    · exact absurd h5 (by simp)
    · injection h5 with h5
      subst h5
      dsimp only
      unfold resolve_primary
      rcases Decidable.em (emp.department = "") with hd | hd
      · rw [if_neg (fun h => h.2 hd), if_pos hd, h4]
      · rw [if_pos ⟨h4, hd⟩, if_neg hd]

/-- Witness for `C5_theorem` at `exDB5`: no overrides, department `D` with
one leave approver and one expense approver at `idx = 1`; both are returned
as primary. -/
theorem C5_witness :
    exDB5.employees.find? (fun e => decide (e.name = "EMP-1")) = some exEmp5 ∧
    exEmp5.leave_approver = "" ∧
    get_leave_approval_details exDB5 "EMP-1" = some exD5L ∧
    exEmp5.expense_approver = "" ∧
    get_expense_approval_details exDB5 "EMP-1" = some exD5E ∧
    exD5L.leave_approver =
      (if exEmp5.department = "" then ""
       else ((exDB5.department_approvers.find? fun a =>
           decide (a.parent = exEmp5.department ∧
             a.parentfield = "leave_approvers" ∧ a.idx = 1)).map
         fun a => a.approver).getD "") ∧
    exD5E.expense_approver =
      (if exEmp5.department = "" then ""
       else ((exDB5.department_approvers.find? fun a =>
           decide (a.parent = exEmp5.department ∧
             a.parentfield = "expense_approvers" ∧ a.idx = 1)).map
         fun a => a.approver).getD "") := by
  refine ⟨by decide, by decide, by decide, by decide, by decide, ?_, ?_⟩
  · exact (C5_theorem exDB5 "EMP-1" exEmp5 exD5L exD5E (by decide) (by decide)
      (by decide) (by decide) (by decide)).1
  · exact (C5_theorem exDB5 "EMP-1" exEmp5 exD5L exD5E (by decide) (by decide)
      (by decide) (by decide) (by decide)).2

/-- Claim C6 (confirmed): over a claims table holding the employee's three
non-cancelled claims with statuses `Draft` / `Approved` / `Rejected` and
amounts `100` / `200` / `300`, together with arbitrary further claims whose
approval status is none of those three, `get_expense_claim_summary` computes
pending / approved / rejected sums of exactly `100` / `200` / `300`: the
extra claims contribute `0` to all three conditional sums. -/
theorem C6_theorem (e : String) (extras : List ExpenseClaimRow) (db : DB)
    (hdb : db.expense_claims = sampleClaims e ++ extras)
    (hex : ∀ c ∈ extras, c.approval_status ≠ "Draft" ∧
      c.approval_status ≠ "Approved" ∧ c.approval_status ≠ "Rejected") :
    (get_expense_claim_summary db e).total_pending_amount = some 100 ∧
    (get_expense_claim_summary db e).total_approved_amount = some 200 ∧
    (get_expense_claim_summary db e).total_rejected_amount = some 300 := by
  have hfilter : db.expense_claims.filter
        (fun c => decide (c.docstatus ≠ 2 ∧ c.employee = e)) =
      sampleClaims e ++ extras.filter
        (fun c => decide (c.docstatus ≠ 2 ∧ c.employee = e)) := by
    rw [hdb, List.filter_append]
    congr 1
    rw [List.filter_eq_self]
    intro a ha
    simp only [sampleClaims, List.mem_cons, List.not_mem_nil, or_false] at ha
    rcases ha with rfl | rfl | rfl <;> simp
  have hzero : ∀ (f : ExpenseClaimRow → Int), (∀ c ∈ extras, f c = 0) →
      ((extras.filter
        (fun c => decide (c.docstatus ≠ 2 ∧ c.employee = e))).map f).sum = 0 := by
    intro f hf
    apply List.sum_eq_zero
    intro x hx
    simp only [List.mem_map, List.mem_filter] at hx
    obtain ⟨c, ⟨hc, _⟩, rfl⟩ := hx
    exact hf c hc
  refine ⟨?_, ?_, ?_⟩ <;>
    simp only [get_expense_claim_summary, hfilter] <;>
    rw [List.map_append, List.sum_append]
  · rw [hzero (fun c =>
      if c.approval_status = "Draft" then c.total_claimed_amount else 0)
      (fun c hc => if_neg (hex c hc).1)]
    simp [sampleClaims]
  · rw [hzero (fun c =>
      if c.approval_status = "Approved" then c.total_sanctioned_amount else 0)
      (fun c hc => if_neg (hex c hc).2.1)]
    simp [sampleClaims]
  · rw [hzero (fun c =>
      if c.approval_status = "Rejected" then c.total_sanctioned_amount else 0)
      (fun c hc => if_neg (hex c hc).2.2)]
    simp [sampleClaims]

/-- Witness for `C6_theorem` at `exDB6`: the three bucketed claims plus one
claim in status `Submitted` with amount `999`; the sums are exactly
`100` / `200` / `300`. -/
theorem C6_witness :
    exDB6.expense_claims = sampleClaims "EMP-1" ++ [extraClaim] ∧
    (∀ c ∈ [extraClaim], c.approval_status ≠ "Draft" ∧
      c.approval_status ≠ "Approved" ∧ c.approval_status ≠ "Rejected") ∧
    (get_expense_claim_summary exDB6 "EMP-1").total_pending_amount = some 100 ∧
    (get_expense_claim_summary exDB6 "EMP-1").total_approved_amount = some 200 ∧
    (get_expense_claim_summary exDB6 "EMP-1").total_rejected_amount = some 300 := by
  have h := C6_theorem ("EMP-1") [extraClaim] exDB6 rfl (by decide)
  exact ⟨rfl, by decide, h.1, h.2.1, h.2.2⟩

/-- Claim C7, counterexample.  The claim states that *every* upload whose
filename maps to a MIME type outside the allow-list is rejected with the
user-facing error.  The source decodes the base64 payload *before* the
MIME check, so for content `"a"` (malformed base64) with filename
`virus.exe` the call fails with the propagated decode error, not with the
user-facing `frappe.throw` message (no record is created either way). -/
theorem C7_counterexample :
    upload_base64_file "a" "virus.exe" none none none =
      Except.error UploadError.decodeError ∧
    allowed_mimetype (guess_type "virus.exe") = false ∧
    ¬ (upload_base64_file "a" "virus.exe" none none none =
        Except.error (UploadError.userFacing
          "You can only upload JPG, PNG, PDF, TXT or Microsoft documents.")) := by
  decide

/-- Claim C7, amended: for uploads whose content is well-formed base64, a
filename mapping to a MIME type outside the allow-list is rejected with the
user-facing error and no record is created; an allowed filename yields a new
`File` record whose content is the base64-decoded bytes; malformed base64
content is rejected by the decode step before the MIME check runs (the
decode error propagates instead of the user-facing message), also creating
no record. -/
theorem C7_amended (c cbad f g : String) (dt dn fieldname : Option String)
    (decoded : List Nat)
    (h1 : b64decode c = some decoded)
    (h2 : allowed_mimetype (guess_type f) = false)
    (h3 : allowed_mimetype (guess_type g) = true)
    (h4 : b64decode cbad = none) :
    upload_base64_file c f dt dn fieldname =
      Except.error (UploadError.userFacing
        "You can only upload JPG, PNG, PDF, TXT or Microsoft documents.") ∧
    upload_base64_file c g dt dn fieldname =
      Except.ok { attached_to_doctype := dt, attached_to_name := dn,
                  attached_to_field := fieldname, folder := "Home",
                  file_name := g, content := decoded, is_private := true } ∧
    upload_base64_file cbad f dt dn fieldname =
      Except.error UploadError.decodeError := by
  refine ⟨?_, ?_, ?_⟩
  · simp [upload_base64_file, h1, h2]
  · simp [upload_base64_file, h1, h3]
  · simp [upload_base64_file, h4]

/-- Witness for `C7_amended`: content `"aGk="` decodes to the bytes of
`"hi"`; `virus.exe` maps outside the allow-list, `report.pdf` inside;
content `"a"` is malformed base64. -/
theorem C7_witness :
    b64decode "aGk=" = some [104, 105] ∧
    allowed_mimetype (guess_type "virus.exe") = false ∧
    allowed_mimetype (guess_type "report.pdf") = true ∧
    b64decode "a" = none ∧
    upload_base64_file "aGk=" "virus.exe" (some "Expense Claim") (some "EXP-1")
        none =
      Except.error (UploadError.userFacing
        "You can only upload JPG, PNG, PDF, TXT or Microsoft documents.") ∧
    upload_base64_file "aGk=" "report.pdf" (some "Expense Claim") (some "EXP-1")
        none =
      Except.ok { attached_to_doctype := some "Expense Claim",
                  attached_to_name := some "EXP-1",
                  attached_to_field := none, folder := "Home",
                  file_name := "report.pdf", content := [104, 105],
                  is_private := true } ∧
    upload_base64_file "a" "virus.exe" (some "Expense Claim") (some "EXP-1")
        none = Except.error UploadError.decodeError := by
  refine ⟨by decide, by decide, by decide, by decide, ?_, ?_, ?_⟩
  · exact (C7_amended "aGk=" "a" "virus.exe" "report.pdf"
      (some "Expense Claim") (some "EXP-1") none [104, 105]
      (by decide) (by decide) (by decide) (by decide)).1
  · exact (C7_amended "aGk=" "a" "virus.exe" "report.pdf"
      (some "Expense Claim") (some "EXP-1") none [104, 105]
      (by decide) (by decide) (by decide) (by decide)).2.1
  · exact (C7_amended "aGk=" "a" "virus.exe" "report.pdf"
      (some "Expense Claim") (some "EXP-1") none [104, 105]
      (by decide) (by decide) (by decide) (by decide)).2.2

/-- Claim C8, counterexample.  The claim states that `can_cancel` /
`can_delete` express whether the viewer may cancel / delete *that specific
record*.  The source calls `frappe.has_permission(doctype, ptype,
user=...)` without passing the document, a doctype-level check.  Under the
permission oracle `exEnv8` — which grants doctype-level checks but denies
the record-specific check for every document — the endpoint returns
`can_cancel = true` for record `LA-1` although the record-specific check for
`LA-1` is `false`. -/
theorem C8_counterexample :
    (get_employee_leave_applications exEnv8 exDB8 "EMP-1").map
        (fun o => o.can_cancel) = [true] ∧
    exEnv8.has_permission "Leave Application" "cancel" (some "LA-1")
      exEnv8.session_user = false ∧
    ¬ ((get_employee_leave_applications exEnv8 exDB8 "EMP-1").map
          (fun o => o.can_cancel) =
        (get_employee_leave_applications exEnv8 exDB8 "EMP-1").map
          (fun o => exEnv8.has_permission "Leave Application" "cancel"
            (some o.row.name) exEnv8.session_user)) ∧
    ¬ ((get_employee_leave_applications exEnv8 exDB8 "EMP-1").map
          (fun o => o.can_delete) =
        (get_employee_leave_applications exEnv8 exDB8 "EMP-1").map
          (fun o => exEnv8.has_permission "Leave Application" "delete"
            (some o.row.name) exEnv8.session_user)) := by
  decide

/-- Claim C8, amended: the `can_cancel` / `can_delete` booleans attached to
every listed leave application are the result of a *doctype-level* permission
check (`cancel` / `delete` on `Leave Application`, no specific document
passed) for the current session user — hence the same value for every
returned record. -/
theorem C8_amended (env : Env) (db : DB)
    (filters : LeaveApplicationRow → Bool) (out : LeaveApplicationOut)
    (h : out ∈ get_leave_applications env db filters) :
    out.can_cancel =
      env.has_permission "Leave Application" "cancel" none env.session_user ∧
    out.can_delete =
      env.has_permission "Leave Application" "delete" none env.session_user := by
  simp only [get_leave_applications, List.mem_map] at h
  obtain ⟨l, _, rfl⟩ := h
  exact ⟨rfl, rfl⟩

/-- Witness for `C8_amended`: the single record listed for `EMP-1` under
`exEnv8` carries the doctype-level check results. -/
theorem C8_witness :
    (⟨exLeaveRow, true, true⟩ : LeaveApplicationOut) ∈
      get_leave_applications exEnv8 exDB8
        (fun r => decide (r.employee = "EMP-1" ∧ r.status ≠ "Cancelled")) ∧
    (⟨exLeaveRow, true, true⟩ : LeaveApplicationOut).can_cancel =
      exEnv8.has_permission "Leave Application" "cancel" none
        exEnv8.session_user ∧
    (⟨exLeaveRow, true, true⟩ : LeaveApplicationOut).can_delete =
      exEnv8.has_permission "Leave Application" "delete" none
        exEnv8.session_user := by
  refine ⟨by decide, ?_, ?_⟩
  · exact (C8_amended exEnv8 exDB8
      (fun r => decide (r.employee = "EMP-1" ∧ r.status ≠ "Cancelled"))
      ⟨exLeaveRow, true, true⟩ (by decide)).1
  · exact (C8_amended exEnv8 exDB8
      (fun r => decide (r.employee = "EMP-1" ∧ r.status ≠ "Cancelled"))
      ⟨exLeaveRow, true, true⟩ (by decide)).2

/-- Claim C9 (confirmed): in `upload_base64_file` the accept/reject decision
depends only on the filename — it equals the allow-list membership of the
MIME type guessed from the filename — so any two well-formed base64 payloads
submitted with the same filename are either both accepted or both
rejected. -/
theorem C9_theorem (filename c1 c2 : String) (d1 d2 : List Nat)
    (dt dn fieldname : Option String)
    (h1 : b64decode c1 = some d1) (h2 : b64decode c2 = some d2) :
    upload_accepted (upload_base64_file c1 filename dt dn fieldname) =
      upload_accepted (upload_base64_file c2 filename dt dn fieldname) ∧
    upload_accepted (upload_base64_file c1 filename dt dn fieldname) =
      allowed_mimetype (guess_type filename) := by
  cases hm : allowed_mimetype (guess_type filename) <;>
    simp [upload_base64_file, upload_accepted, h1, h2, hm]

/-- Witness for `C9_theorem`: contents `"aGk="` and `""` (both well-formed)
with filename `report.pdf` are both accepted. -/
theorem C9_witness :
    b64decode "aGk=" = some [104, 105] ∧
    b64decode "" = some [] ∧
    upload_accepted (upload_base64_file "aGk=" "report.pdf" none none none) =
      upload_accepted (upload_base64_file "" "report.pdf" none none none) ∧
    upload_accepted (upload_base64_file "aGk=" "report.pdf" none none none) =
      allowed_mimetype (guess_type "report.pdf") := by
  have h := C9_theorem ("report.pdf") "aGk=" "" [104, 105] [] none none none
    (by decide) (by decide)
  exact ⟨by decide, by decide, h.1, h.2⟩

/-- Claim C10 (confirmed): the `limit` parameter of `get_expense_claims`
restricts the result only when it is truthy — `limit = 0` behaves exactly
like passing no limit and returns all matching claims, while a nonzero limit
returns the prefix of that unrestricted result. -/
theorem C10_theorem (db : DB) (employee : String) (approver_id : Option String)
    (for_approval : Bool) (n : Nat) (hn : n ≠ 0) :
    get_expense_claims db employee approver_id for_approval (some 0) =
      get_expense_claims db employee approver_id for_approval none ∧
    get_expense_claims db employee approver_id for_approval (some n) =
      (get_expense_claims db employee approver_id for_approval none).take n := by
  constructor
  · rfl
  · simp only [get_expense_claims]
    rw [if_pos hn]

/-- Witness for `C10_theorem` at `exDB10` (three matching claims):
`limit = 0` returns all three claims like `limit = None`, and `limit = 2`
returns the first two. -/
theorem C10_witness :
    (2 : Nat) ≠ 0 ∧
    get_expense_claims exDB10 "EMP-1" none false (some 0) =
      get_expense_claims exDB10 "EMP-1" none false none ∧
    get_expense_claims exDB10 "EMP-1" none false (some 2) =
      (get_expense_claims exDB10 "EMP-1" none false none).take 2 := by
  refine ⟨by decide, ?_, ?_⟩
  · exact (C10_theorem exDB10 "EMP-1" none false 2 (by decide)).1
  · exact (C10_theorem exDB10 "EMP-1" none false 2 (by decide)).2

end HrmsApi
